import Mathlib

/-!
Verification of the document-parsing / OCR-selection core of the `mycg`
backend (`backend-python`).  The Python source is shallowly embedded:

* `services/document_processor.py` (class `DocumentProcessor`): the regex
  patterns are embedded as terms of a small `Re` type together with an
  executable backtracking matcher `runRe` that follows Python `re`
  semantics (leftmost match, ordered alternation, greedy / lazy
  quantifiers, word boundaries, case-insensitive variants where the
  source passes `re.IGNORECASE`).  Strings are `List Char`, floats are
  `ℚ`, and Python's `None` becomes `Option`.
* `api/v1/document.py` (`detect_document_type`).
* `services/ocr_service.py` (`OCRService.extract_text_from_image` and
  `OCRService._choose_best_method`): external effects (engine calls,
  image loading, the Laplacian-variance measurement) are supplied by an
  explicit environment record; an engine invocation that raises is an
  `Except.error` value.

Claims are settled as theorems at the end of the file.
-/

/-! ### Characters and basic string helpers (Python semantics) -/

/-- Strings of the embedded program are lists of characters. -/
abbrev Str := List Char

/-- Python `\s` (ASCII part): space, tab, newline, carriage return,
form feed, vertical tab. -/
def isPySpace (c : Char) : Bool :=
  c = ' ' || c = '\t' || c = '\n' || c = '\x0d' || c = '\x0c' || c = '\x0b'

/-- Python `\w` (ASCII part): letters, digits, underscore. -/
def isPyWord (c : Char) : Bool :=
  ('a' ≤ c && c ≤ 'z') || ('A' ≤ c && c ≤ 'Z') || ('0' ≤ c && c ≤ '9') || c = '_'

/-- ASCII decimal digit. -/
def isDigitCh (c : Char) : Bool := '0' ≤ c && c ≤ '9'

/-- Python `str.lower` on the ASCII range (all characters appearing in the
modelled inputs are ASCII or `'₹'`, which is unchanged). -/
def lowerStr (s : Str) : Str := s.map Char.toLower

/-- Python `str.strip()`: remove leading and trailing whitespace. -/
def stripStr (s : Str) : Str :=
  ((s.dropWhile isPySpace).reverse.dropWhile isPySpace).reverse

/-- Python `needle in hay` substring test. -/
def containsSub (needle hay : Str) : Bool :=
  if List.isPrefixOf needle hay then true
  else
    match hay with
    | [] => false
    | _ :: t => containsSub needle t

/-- Helper for `splitWs`: `acc` holds the current word reversed. -/
def splitWsAux : Str → Str → List Str
  | [], acc => if acc = [] then [] else [acc.reverse]
  | c :: t, acc =>
    if isPySpace c then
      if acc = [] then splitWsAux t [] else acc.reverse :: splitWsAux t []
    else splitWsAux t (c :: acc)

/-- Python `s.split()` (no argument): split on whitespace runs, dropping
empty pieces. -/
def splitWs (s : Str) : List Str := splitWsAux s []

/-- Python `' '.join(s.split())`: collapse whitespace runs to single
spaces and trim. -/
def collapseWs (s : Str) : Str :=
  List.intercalate [' '] (splitWs s)

/-! ### A small backtracking regex engine with Python `re` semantics

Constructs cover exactly what the embedded patterns use: character
classes, concatenation, ordered alternation, greedy and lazy repetition,
`?`, bounded repetition, one capturing group, `\b` and `$`.  The matcher
returns the list of all matches at the current position ordered by
Python's backtracking priority; the head is the match Python reports. -/

inductive Re where
  | eps : Re
  | pred : (Char → Bool) → Re
  | cat : Re → Re → Re
  | alt : Re → Re → Re
  | star : Re → Re
  | lazyStar : Re → Re
  | group : Re → Re
  | wordB : Re
  | strEnd : Re

/-- One way a regex can match at the current position: the consumed
characters, the rest of the input, and the capture of group 1 (if any). -/
structure MRes where
  consumed : Str
  rest : Str
  grp : Option Str
deriving DecidableEq, Repr

/-- The character preceding the current position after consuming
`r.consumed` (needed for `\b`). -/
def nextPrev (prev : Option Char) (consumed : Str) : Option Char :=
  match consumed.getLast? with
  | some c => some c
  | none => prev

/-- Combine the results of the two halves of a concatenation. -/
def combRes (a b : MRes) : MRes :=
  ⟨a.consumed ++ b.consumed, b.rest, a.grp <|> b.grp⟩

/-- All matches of `re` at the start of `s`, in Python backtracking
priority order.  `prev` is the character just before the current
position (`none` at the start of the subject).  `fuel` bounds the
recursion depth; every call below passes enough fuel for the embedded
patterns, so the cut-off branch is never reached on the inputs of the
theorems in this file. -/
def runRe : Nat → Re → Option Char → Str → List MRes
  | 0, _, _, _ => []
  | _ + 1, .eps, _, s => [⟨[], s, none⟩]
  | _ + 1, .pred p, _, s =>
    match s with
    | [] => []
    | c :: t => if p c then [⟨[c], t, none⟩] else []
  | f + 1, .cat a b, prev, s =>
    (runRe f a prev s).flatMap fun r =>
      (runRe f b (nextPrev prev r.consumed) r.rest).map (combRes r)
  | f + 1, .alt a b, prev, s => runRe f a prev s ++ runRe f b prev s
  | f + 1, .star a, prev, s =>
    (((runRe f a prev s).filter (fun r => r.consumed ≠ [])).flatMap fun r =>
      (runRe f (.star a) (nextPrev prev r.consumed) r.rest).map (combRes r))
    ++ [⟨[], s, none⟩]
  | f + 1, .lazyStar a, prev, s =>
    ⟨[], s, none⟩ ::
    (((runRe f a prev s).filter (fun r => r.consumed ≠ [])).flatMap fun r =>
      (runRe f (.lazyStar a) (nextPrev prev r.consumed) r.rest).map (combRes r))
  | f + 1, .group a, prev, s =>
    (runRe f a prev s).map fun r => { r with grp := some r.consumed }
  | _ + 1, .wordB, prev, s =>
    let w1 := match prev with | some c => isPyWord c | none => false
    let w2 := match s.head? with | some c => isPyWord c | none => false
    if w1 ≠ w2 then [⟨[], s, none⟩] else []
  | _ + 1, .strEnd, _, s =>
    if s = [] ∨ s = ['\n'] then [⟨[], s, none⟩] else []

/-- Structural size of a pattern, used to compute a sufficient fuel. -/
def reSize : Re → Nat
  | .eps | .pred _ | .wordB | .strEnd => 1
  | .cat a b | .alt a b => reSize a + reSize b + 1
  | .star a | .lazyStar a | .group a => reSize a + 1

/-- Generous fuel: recursion depth is bounded by the pattern size times
the number of star unfoldings, each of which consumes a character. -/
def reFuel (re : Re) (s : Str) : Nat := (reSize re + 2) * (s.length + 2)

/-- Python `re.search` scanning from the current position: returns the skipped
prefix and the first match, Python-style (leftmost position, then
backtracking priority). -/
def searchFrom (re : Re) (prev : Option Char) (s : Str) : Option (Str × MRes) :=
  match runRe (reFuel re s) re prev s with
  | r :: _ => some ([], r)
  | [] =>
    match s with
    | [] => none
    | c :: t => (searchFrom re (some c) t).map fun p => (c :: p.1, p.2)

/-- Python `re.search` on a whole subject. -/
def reSearch (re : Re) (s : Str) : Option MRes :=
  (searchFrom re none s).map (·.2)

/-- Python `re.findall` for a pattern with one capturing group: the list of
group-1 captures of all non-overlapping matches, scanning left to
right.  An empty match advances by one character (Python behaviour); the
embedded patterns never match empty. -/
def reFindall (fuel : Nat) (re : Re) (prev : Option Char) (s : Str) : List Str :=
  match fuel with
  | 0 => []
  | f + 1 =>
    match searchFrom re prev s with
    | none => []
    | some (skip, m) =>
      let cap := m.grp.getD m.consumed
      if m.consumed = [] then
        match m.rest with
        | [] => [cap]
        | c :: t => cap :: reFindall f re (some c) t
      else
        cap :: reFindall f re (nextPrev prev (skip ++ m.consumed)) m.rest

/-- Python `re.sub(re, '', s)`: delete all non-overlapping matches. -/
def reSubAll (fuel : Nat) (re : Re) (prev : Option Char) (s : Str) : Str :=
  match fuel with
  | 0 => s
  | f + 1 =>
    match searchFrom re prev s with
    | none => s
    | some (skip, m) =>
      if m.consumed = [] then
        match m.rest with
        | [] => skip
        | c :: t => skip ++ c :: reSubAll f re (some c) t
      else
        skip ++ reSubAll f re (nextPrev prev (skip ++ m.consumed)) m.rest

/-- Top-level `findall`. -/
def findall (re : Re) (s : Str) : List Str := reFindall (s.length + 1) re none s

/-- Top-level `re.sub(pattern, '', s)`. -/
def subAll (re : Re) (s : Str) : Str := reSubAll (s.length + 1) re none s

/-! #### Pattern-building helpers -/

/-- Literal character (case-sensitive). -/
def chC (c : Char) : Re := .pred (· = c)

/-- Literal character under `re.IGNORECASE` (give the lowercase form). -/
def chI (c : Char) : Re := .pred (fun x => x.toLower = c)

/-- Case-sensitive literal string. -/
def strC (s : String) : Re := (s.toList.map chC).foldr .cat .eps

/-- Case-insensitive literal string (written in lowercase). -/
def strI (s : String) : Re := (s.toList.map chI).foldr .cat .eps

/-- Ordered alternation of a non-empty list (first alternative wins). -/
def altList : List Re → Re
  | [] => .eps
  | [r] => r
  | r :: rest => .alt r (altList rest)

/-- Greedy `?`. -/
def opt (r : Re) : Re := .alt r .eps

/-- Greedy `+`. -/
def plus (r : Re) : Re := .cat r (.star r)

/-- Lazy `+?`. -/
def lazyPlus (r : Re) : Re := .cat r (.lazyStar r)

/-- Greedy chain of at most `n` optional copies of `r` (used to desugar
`{m,n}`: greedy, longer first). -/
def optChain (r : Re) : Nat → Re
  | 0 => .eps
  | n + 1 => .alt (.cat r (optChain r n)) .eps

/-- Python `{m,n}` (greedy): `m` required copies then up to `extra`
optional ones. -/
def repRange (r : Re) (m extra : Nat) : Re :=
  (List.replicate m r).foldr .cat (optChain r extra)

/-- Digit class `\d`. -/
def dD : Re := .pred isDigitCh

/-- Whitespace class `\s`. -/
def dS : Re := .pred isPySpace

/-- Word class `\w`. -/
def dW : Re := .pred isPyWord

/-- The slash-or-dash character class of the date patterns. -/
def slashDash : Re := .pred (fun c => c = '/' || c = '-')

/-- Character class `[0-9,]`. -/
def digitComma : Re := .pred (fun c => isDigitCh c || c = ',')

/-- Concatenation of a list of patterns. -/
def catList (l : List Re) : Re := l.foldr .cat .eps

/-! ### The `DocumentProcessor` patterns (`services/document_processor.py`)

Patterns used with `re.IGNORECASE` in the source take a `ci` flag or are
built from `strI`/case-insensitive classes; the transaction-line parser
searches case-sensitively, `_extract_date` case-insensitively. -/

/-- The class `[a-z]` (matches uppercase too under `IGNORECASE`). -/
def azClass (ci : Bool) : Re :=
  .pred (fun c => ('a' ≤ c && c ≤ 'z') || (ci && ('A' ≤ c && c ≤ 'Z')))

/-- The class `[A-Za-z\s]` of the vendor patterns. -/
def azOrSpace : Re :=
  .pred (fun c => ('a' ≤ c && c ≤ 'z') || ('A' ≤ c && c ≤ 'Z') || isPySpace c)

/-- The class `[A-Z0-9]` under `IGNORECASE` (GSTIN pattern). -/
def azDigit : Re :=
  .pred (fun c => ('a' ≤ c && c ≤ 'z') || ('A' ≤ c && c ≤ 'Z') || isDigitCh c)

/-- Any character except newline (the `.` of the period pattern). -/
def dotAny : Re := .pred (fun c => c ≠ '\n')

/-- First date pattern: digits 1-2, slash or dash, digits 1-2, slash or
dash, digits 2-4, with word boundaries. -/
def datePat1 : Re :=
  catList [.wordB, repRange dD 1 1, slashDash, repRange dD 1 1, slashDash,
    repRange dD 2 2, .wordB]

/-- Month-name alternation of the second date pattern. -/
def monthAlt (ci : Bool) : Re :=
  let lit : String → Re := fun s => if ci then strI s.toLower else strC s
  altList (["Jan", "Feb", "Mar", "Apr", "May", "Jun", "Jul", "Aug", "Sep",
    "Oct", "Nov", "Dec"].map lit)

/-- Second date pattern: day, spaces, month name, trailing lowercase
letters, spaces, 2-4 digit year, with word boundaries. -/
def datePat2 (ci : Bool) : Re :=
  catList [.wordB, repRange dD 1 1, plus dS, .group (monthAlt ci),
    .star (azClass ci), plus dS, repRange dD 2 2, .wordB]

/-- Third date pattern: 4-digit year, separator, 1-2 digits, separator,
1-2 digits, with word boundaries. -/
def datePat3 : Re :=
  catList [.wordB, repRange dD 4 0, slashDash, repRange dD 1 1, slashDash,
    repRange dD 1 1, .wordB]

/-- List `self.date_patterns`, in source order. -/
def date_patterns (ci : Bool) : List Re := [datePat1, datePat2 ci, datePat3]

/-- The captured amount body: digits-or-commas, optional dot, digits. -/
def amtGroup : Re :=
  .group (catList [plus digitComma, opt (chC '.'), .star dD])

/-- List `self.amount_patterns`, in source order: rupee-sign prefixed,
`Rs.`-prefixed, decimal with two fraction digits, plain integer. -/
def amount_patterns : List Re :=
  [ catList [chC '₹', .star dS, amtGroup],
    catList [strC "Rs", opt (chC '.'), .star dS, amtGroup],
    catList [.wordB, .group (catList [plus digitComma, chC '.', repRange dD 2 0]), .wordB],
    catList [.wordB, .group (plus digitComma), .wordB] ]

/-- The date-deletion pattern of the description builder (only the first,
slash-or-dash, date shape). -/
def dateSubPat : Re := datePat1

/-- The amount-deletion pattern of the description builder: optional
rupee sign, spaces, digits-or-commas, optional dot, digits. -/
def amtSubPat : Re :=
  catList [opt (chC '₹'), .star dS, plus digitComma, opt (chC '.'), .star dD]

/-- Invoice-number label patterns (`invoice`, `inv`, `bill`), with the
optional hash, optional colon and a `\w+` capture, case-insensitive. -/
def invoice_patterns : List Re :=
  let tail := catList [.star dS, opt (chC '#'), .star dS, opt (chC ':'),
    .star dS, .group (plus dW)]
  [ .cat (strI "invoice") tail, .cat (strI "inv") tail, .cat (strI "bill") tail ]

/-- Vendor-name patterns, case-insensitive, with a lazy letters-or-spaces
capture terminated by a newline, a label word, or end of text. -/
def vendor_patterns : List Re :=
  [ catList [strI "from", .star dS, opt (chC ':'), .star dS,
      .group (lazyPlus azOrSpace), altList [chC '\n', strI "tax", strI "gst"]],
    catList [strI "vendor", .star dS, opt (chC ':'), .star dS,
      .group (lazyPlus azOrSpace), .alt (chC '\n') .strEnd],
    catList [strI "bill", plus dS, strI "to", .star dS, opt (chC ':'), .star dS,
      .group (lazyPlus azOrSpace), .alt (chC '\n') .strEnd] ]

/-- GSTIN pattern: the label then a 15-character alphanumeric capture. -/
def gstinPat : Re :=
  catList [strI "gstin", .star dS, opt (chC ':'), .star dS,
    .group (repRange azDigit 15 0)]

/-- Total-amount label patterns, in source order. -/
def total_patterns : List Re :=
  let tail := catList [.star dS, opt (chC ':'), .star dS, opt (chC '₹'),
    .star dS, amtGroup]
  [ .cat (strI "total") tail,
    .cat (catList [strI "grand", plus dS, strI "total"]) tail,
    .cat (catList [strI "amount", plus dS, strI "payable"]) tail ]

/-- Tax label patterns: `gst`-or-`tax` labelled, then
`cgst`-or-`sgst`-or-`igst` labelled. -/
def tax_patterns : List Re :=
  let tail := catList [.star dS, opt (chC ':'), .star dS, opt (chC '₹'),
    .star dS, amtGroup]
  [ .cat (altList [strI "gst", strI "tax"]) tail,
    .cat (altList [strI "cgst", strI "sgst", strI "igst"]) tail ]

/-- Account-number pattern of `_extract_account_details`. -/
def accPat : Re :=
  catList [strI "account", .star dS, strI "no", opt (chC '.'), .star dS,
    opt (chC ':'), .star dS, .group (plus dD)]

/-- Bank-name patterns: known bank names, then an uppercase-letters
pattern ending in `BANK` (both case-insensitive in the source). -/
def bank_patterns : List Re :=
  [ .group (altList (["hdfc", "icici", "sbi", "axis", "kotak", "pnb", "bob",
      "canara"].map strI)),
    .group (catList [plus azOrSpace, strI "bank"]) ]

/-- Statement-period pattern with a lazy any-character capture. -/
def periodPat : Re :=
  catList [strI "statement", plus dS, strI "period", .star dS, opt (chC ':'),
    .star dS, .group (lazyPlus dotAny), .alt (chC '\n') .strEnd]

/-- Line-item detection pattern: digits, optional dot, digits, spaces,
rupee sign. -/
def lineItemPat : Re :=
  catList [plus dD, opt (chC '.'), .star dD, .star dS, chC '₹']

/-! ### Data model (`models/ai_models.py`) -/

/-- Model `TransactionData` (pydantic model): `float` becomes `ℚ`, optional
fields become `Option`. -/
structure TransactionData where
  date : Option Str
  description : Str
  amount : Option ℚ
  transaction_type : Option Str
  category : Option Str
  confidence : ℚ
deriving DecidableEq, Repr

/-- The keys of the `account_details` dictionary that
`_extract_account_details` can populate; an unset key is `none`. -/
structure AccountDetails where
  account_number : Option Str
  bank_name : Option Str
  statement_period : Option Str
deriving DecidableEq, Repr

/-- The summary dictionary built by `parse_bank_statement`. -/
structure Summary where
  total_transactions : Nat
  total_debits : ℚ
  total_credits : ℚ
  net_amount : ℚ
deriving DecidableEq, Repr

/-- Model `BankStatementParsing`. -/
structure BankStatementParsing where
  transactions : List TransactionData
  account_details : AccountDetails
  summary : Summary
  parsing_confidence : ℚ
deriving DecidableEq, Repr

/-- A line-item dictionary of `_extract_line_items`. -/
structure LineItem where
  description : Str
  quantity : Nat
  amount : ℚ
deriving DecidableEq, Repr

/-- Model `InvoiceData`. -/
structure InvoiceData where
  invoice_number : Option Str
  date : Option Str
  vendor_name : Option Str
  vendor_gstin : Option Str
  total_amount : Option ℚ
  tax_amount : Option ℚ
  line_items : List LineItem
  confidence : ℚ
deriving DecidableEq, Repr

/-! ### `DocumentProcessor` operations -/

/-- Numeric value of a digit string (most significant first). -/
def natOfDigits (s : Str) : Nat :=
  s.foldl (fun a c => 10 * a + (c.toNat - '0'.toNat)) 0

/-- Python `float(g.replace(',', ''))` on a string `g` captured by an
amount group (digits and commas, optional dot, digits): `none` models a
`ValueError` (raised when no digit remains after comma removal). -/
def floatOfPyStr (g : Str) : Option ℚ :=
  let s := g.filter (fun c => c ≠ ',')
  if s.any isDigitCh then
    let ip := s.takeWhile isDigitCh
    let rest := s.dropWhile isDigitCh
    let fp := match rest with
      | '.' :: t => t
      | _ => []
    some ((natOfDigits ip : ℚ) + (natOfDigits fp : ℚ) / (10 : ℚ) ^ fp.length)
  else none

/-- Embeds `DocumentProcessor._extract_amount_from_line`: first amount pattern
whose search succeeds and whose capture parses as a float (a
`ValueError` falls through to the next pattern). -/
def extract_amount_from_line (line : Str) : Option ℚ :=
  (amount_patterns.filterMap fun p =>
    (reSearch p line).bind fun m => floatOfPyStr (m.grp.getD [])).head?

/-- The debit keyword list of `_parse_transaction_line`. -/
def debit_words : List Str := ["dr", "debit", "withdrawal", "paid"].map String.toList

/-- The category keyword table of `_auto_categorize_transaction`, in
insertion (iteration) order. -/
def categories : List (Str × List Str) :=
  [ ("food".toList, ["restaurant", "food", "cafe", "hotel", "dining", "swiggy",
      "zomato"].map String.toList),
    ("fuel".toList, ["petrol", "diesel", "fuel", "gas", "hp", "ioc",
      "bpcl"].map String.toList),
    ("utilities".toList, ["electricity", "water", "gas", "phone", "internet",
      "broadband"].map String.toList),
    ("transport".toList, ["uber", "ola", "taxi", "metro", "bus",
      "auto"].map String.toList),
    ("shopping".toList, ["amazon", "flipkart", "mall", "store",
      "purchase"].map String.toList),
    ("medical".toList, ["hospital", "pharmacy", "doctor", "medical",
      "clinic"].map String.toList),
    ("education".toList, ["school", "college", "university", "course",
      "training"].map String.toList),
    ("entertainment".toList, ["movie", "cinema", "netflix", "spotify",
      "game"].map String.toList) ]

/-- Embeds `DocumentProcessor._auto_categorize_transaction`: first category in
table order with any keyword occurring in the lower-cased description;
`miscellaneous` otherwise. -/
def auto_categorize_transaction (description : Str) : Str :=
  let dl := lowerStr description
  match categories.find? (fun ck => ck.2.any (fun w => containsSub w dl)) with
  | some ck => ck.1
  | none => "miscellaneous".toList

/-- Embeds `DocumentProcessor._parse_transaction_line`.  Python's
`if not amount` treats both `None` and `0.0` as missing. -/
def parse_transaction_line (line : Str) : Option TransactionData :=
  match ((date_patterns false).filterMap fun p => reSearch p line).head? with
  | none => none
  | some dateM =>
    match extract_amount_from_line line with
    | none => none
    | some a =>
      if a = 0 then none
      else
        let ttype : Str :=
          if debit_words.any (fun w => containsSub w (lowerStr line)) then
            "debit".toList
          else "credit".toList
        let desc := collapseWs (subAll amtSubPat (subAll dateSubPat line))
        some { date := some dateM.consumed
               description := desc
               amount := some a
               transaction_type := some ttype
               category := some (auto_categorize_transaction desc)
               confidence := if a ≠ 0 then (0.8 : ℚ) else (0.5 : ℚ) }

/-- Embeds `DocumentProcessor._extract_account_details`. -/
def extract_account_details (text : Str) : AccountDetails :=
  { account_number := (reSearch accPat text).bind (·.grp)
    bank_name := (bank_patterns.filterMap fun p => (reSearch p text).bind (·.grp)).head?
    statement_period := ((reSearch periodPat text).bind (·.grp)).map stripStr }

/-- Python truthiness of an optional float (`None` and `0.0` are falsy). -/
def amtTruthy (o : Option ℚ) : Bool := o.any (fun a => a ≠ 0)

/-- Embeds `DocumentProcessor.parse_bank_statement`. -/
def parse_bank_statement (text : Str) : BankStatementParsing :=
  let lines := (text.splitOn '\n').map stripStr
  let kept := lines.filter fun l => !(l.isEmpty || decide (l.length < 10))
  let transactions := kept.filterMap parse_transaction_line
  let total_debits := ((transactions.filter fun t =>
    t.transaction_type = some "debit".toList && amtTruthy t.amount).map
      (fun t => t.amount.getD 0)).sum
  let total_credits := ((transactions.filter fun t =>
    t.transaction_type = some "credit".toList && amtTruthy t.amount).map
      (fun t => t.amount.getD 0)).sum
  let valid := transactions.filter fun t => t.amount.isSome
  { transactions := transactions
    account_details := extract_account_details text
    summary := { total_transactions := transactions.length
                 total_debits := total_debits
                 total_credits := total_credits
                 net_amount := total_credits - total_debits }
    parsing_confidence :=
      if transactions.isEmpty then 0
      else (valid.length : ℚ) / (transactions.length : ℚ) }

/-- The amounts dictionary of `_extract_amounts`: a missing key is
`none`. -/
structure Amounts where
  total : Option ℚ
  tax : Option ℚ
deriving DecidableEq, Repr

/-- Embeds `DocumentProcessor._extract_amounts`.  The overall `none` models an
uncaught `ValueError` from `float` (there is no try/except in this
method); `tax` is the sum of all `findall` captures across both tax
patterns, set only when at least one capture exists. -/
def extract_amounts (text : Str) : Option Amounts :=
  let totalQ : Option (Option ℚ) :=
    match (total_patterns.filterMap fun p => reSearch p text).head? with
    | none => some none
    | some m =>
      match floatOfPyStr (m.grp.getD []) with
      | none => none
      | some q => some (some q)
  match totalQ with
  | none => none
  | some total =>
    match ((tax_patterns.map fun p => findall p text).flatten).mapM floatOfPyStr with
    | none => none
    | some taxVals =>
      some { total := total
             tax := if taxVals.isEmpty then none else some taxVals.sum }

/-- Embeds `DocumentProcessor._extract_date` (searched with `re.IGNORECASE`). -/
def extract_date (text : Str) : Option Str :=
  (((date_patterns true).filterMap fun p => reSearch p text).head?).map (·.consumed)

/-- Embeds `DocumentProcessor._extract_vendor_name`: a capture is accepted only
when its stripped form exceeds 3 characters; otherwise the next pattern
is tried. -/
def extract_vendor_name (text : Str) : Option Str :=
  (vendor_patterns.filterMap fun p =>
    (reSearch p text).bind fun m =>
      let v := stripStr (m.grp.getD [])
      if 3 < v.length then some v else none).head?

/-- Embeds `DocumentProcessor._extract_gstin`. -/
def extract_gstin (text : Str) : Option Str :=
  (reSearch gstinPat text).bind (·.grp)

/-- Embeds `DocumentProcessor._extract_line_items`: lines containing a
digits-then-rupee-sign shape, capped at 10, quantity hardcoded to 1,
amount falling back to 0 via Python `or`. -/
def extract_line_items (text : Str) : List LineItem :=
  (((text.splitOn '\n').filter fun l => (reSearch lineItemPat l).isSome).map
    fun l => { description := stripStr l
               quantity := 1
               amount := (extract_amount_from_line l).getD 0 }).take 10

/-- Python truthiness of an optional string (`None` and `""` are falsy). -/
def strTruthy (o : Option Str) : Bool := o.any (fun s => !s.isEmpty)

/-- Embeds `DocumentProcessor.parse_invoice`.  The result is `none` exactly when
`_extract_amounts` raises; otherwise the record mirrors the mutated
`InvoiceData` object, with `confidence` = number of truthy fields among
invoice number, date, vendor name and total amount, divided by 4. -/
def parse_invoice (text : Str) : Option InvoiceData :=
  let invoice_number :=
    (invoice_patterns.filterMap fun p => (reSearch p text).bind (·.grp)).head?
  let date := extract_date text
  let vendor_name := extract_vendor_name text
  let vendor_gstin := extract_gstin text
  match extract_amounts text with
  | none => none
  | some amounts =>
    let pair : Option ℚ × Option ℚ :=
      if amounts.total.isSome || amounts.tax.isSome then
        (some (amounts.total.getD 0), some (amounts.tax.getD 0))
      else (none, none)
    let fields_found : Nat :=
      (if strTruthy invoice_number then 1 else 0) +
      (if strTruthy date then 1 else 0) +
      (if strTruthy vendor_name then 1 else 0) +
      (if amtTruthy pair.1 then 1 else 0)
    some { invoice_number := invoice_number
           date := date
           vendor_name := vendor_name
           vendor_gstin := vendor_gstin
           total_amount := pair.1
           tax_amount := pair.2
           line_items := extract_line_items text
           confidence := (fields_found : ℚ) / 4 }

/-! ### `detect_document_type` (`api/v1/document.py`) -/

/-- Bank-statement indicator keywords. -/
def bank_keywords : List Str :=
  ["statement", "account", "balance", "transaction", "bank"].map String.toList

/-- Invoice indicator keywords. -/
def invoice_keywords : List Str :=
  ["invoice", "bill", "gstin", "tax invoice"].map String.toList

/-- GST-notice indicator keywords. -/
def gst_keywords : List Str :=
  ["gst", "notice", "department", "compliance"].map String.toList

/-- Embeds `detect_document_type`: lower-case, then test the three keyword sets
in priority order. -/
def detect_document_type (text : Str) : Str :=
  let tl := lowerStr text
  if bank_keywords.any (fun w => containsSub w tl) then "bank_statement".toList
  else if invoice_keywords.any (fun w => containsSub w tl) then "invoice".toList
  else if gst_keywords.any (fun w => containsSub w tl) then "gst_notice".toList
  else "other".toList

/-! ### `OCRService` (`services/ocr_service.py`)

External effects are supplied by an environment: which dependencies and
clients are configured, what each engine invocation would produce (an
`Except.error` models a raised exception carrying `str(e)`), whether
`cv2`/`numpy` imported, and the Laplacian variance of the grayscale
image (`none` models `imread` returning `None` or raising).
`processing_time`, a wall-clock measurement, is not modelled. -/

/-- Outcome of one OCR engine invocation. -/
abbrev EngineOutcome := Except String (String × ℚ)

/-- The environment of one `extract_text_from_image` call. -/
structure OCREnv where
  azureOk : Bool
  tesseractOk : Bool
  easyocrOk : Bool
  gvOk : Bool
  runAzure : EngineOutcome
  runTesseract : EngineOutcome
  runEasyocr : EngineOutcome
  runGV : EngineOutcome
  cvnp : Bool
  variance : Option ℚ

/-- Embeds `OCRService._check_dependencies`. -/
def check_dependencies (env : OCREnv) (method : String) : Bool :=
  if method = "azure" then env.azureOk
  else if method = "tesseract" then env.tesseractOk
  else if method = "easyocr" then env.easyocrOk
  else if method = "google_vision" then env.gvOk
  else false

/-- The `available_methods` list built at the top of
`extract_text_from_image`, in source order. -/
def availableMethods (env : OCREnv) : List String :=
  (if check_dependencies env "azure" then ["azure"] else []) ++
  (if check_dependencies env "tesseract" then ["tesseract"] else []) ++
  (if check_dependencies env "easyocr" then ["easyocr"] else []) ++
  (if check_dependencies env "google_vision" then ["google_vision"] else [])

/-- Embeds `OCRService._choose_best_method`: azure, then google_vision, then the
Laplacian-variance heuristic when both easyocr and tesseract are
available and the image loads, else the first available method. -/
def choose_best_method (env : OCREnv) (av : List String) : String :=
  if av.contains "azure" then "azure"
  else if av.contains "google_vision" then "google_vision"
  else
    let heur : Option String :=
      if env.cvnp && av.contains "easyocr" && av.contains "tesseract" then
        match env.variance with
        | some v => some (if v > 500 then "easyocr" else "tesseract")
        | none => none
      else none
    match heur with
    | some m => m
    | none => av.headD "tesseract"

/-- Invoking one engine method (`_azure_document_ocr` etc.): each raises
its own unavailability message when its dependencies are missing. -/
def runEngine (env : OCREnv) (method : String) : EngineOutcome :=
  if method = "azure" then
    if env.azureOk then env.runAzure
    else .error "Azure Document Intelligence not available"
  else if method = "tesseract" then
    if env.tesseractOk then env.runTesseract
    else .error "Tesseract dependencies not available"
  else if method = "easyocr" then
    if env.easyocrOk then env.runEasyocr
    else .error "EasyOCR dependencies not available"
  else if method = "google_vision" then
    if env.gvOk then env.runGV
    else .error "Google Vision dependencies not available"
  else .error "unknown method"

/-- The for/else fallback loop of `extract_text_from_image`: first
engine in `av` that succeeds, with its name; `none` when all fail. -/
def fallbackLoop (env : OCREnv) : List String → Option (String × String × ℚ)
  | [] => none
  | m :: rest =>
    match runEngine env m with
    | .ok r => some (m, r.1, r.2)
    | .error _ => fallbackLoop env rest

/-- Model `OCRResult` without its wall-clock `processing_time` field. -/
structure OCRResult where
  extracted_text : String
  confidence : ℚ
  method_used : String
deriving DecidableEq, Repr

/-- The text returned when no OCR method is available. -/
def unavailableMsg : String :=
  "OCR services unavailable. Please configure Azure Document Intelligence or install OCR dependencies."

/-- The body of the try block of `extract_text_from_image`: dispatch on
the (normalized) method name, falling back to the engine loop; the
result carries the engine name recorded in `method_used`. -/
def ocrDispatch (env : OCREnv) (av : List String) (m2 : String) :
    Except String (String × String × ℚ) :=
  if m2 = "azure" && check_dependencies env "azure" then
    (runEngine env "azure").map (fun r => (m2, r.1, r.2))
  else if m2 = "google_vision" && check_dependencies env "google_vision" then
    (runEngine env "google_vision").map (fun r => (m2, r.1, r.2))
  else if m2 = "easyocr" && check_dependencies env "easyocr" then
    (runEngine env "easyocr").map (fun r => (m2, r.1, r.2))
  else if m2 = "tesseract" && check_dependencies env "tesseract" then
    (runEngine env "tesseract").map (fun r => (m2, r.1, r.2))
  else
    match fallbackLoop env av with
    | some r => .ok r
    | none => .error "All available OCR methods failed"

/-- Completion of `extract_text_from_image`: build the success result,
or the zero-confidence error result of the outer except handler. -/
def finishExtract (env : OCREnv) (av : List String) (m2 : String) : OCRResult :=
  match ocrDispatch env av m2 with
  | .ok (m, t, c) => { extracted_text := t, confidence := c, method_used := m }
  | .error e =>
    { extracted_text := "OCR extraction failed: " ++ e, confidence := 0,
      method_used := m2 }

/-- Embeds `OCRService.extract_text_from_image`: a total function — any
exception raised inside the try block becomes the zero-confidence error
result. -/
def extract_text_from_image (env : OCREnv) (method : String) : OCRResult :=
  let av := availableMethods env
  if av.isEmpty then
    { extracted_text := unavailableMsg, confidence := 0, method_used := "none" }
  else
    let m1 :=
      if method = "auto" then
        if av.contains "azure" then "azure" else choose_best_method env av
      else method
    let m2 := if !check_dependencies env m1 then av.headD "" else m1
    finishExtract env av m2

/-! ### Auxiliary definitions used by the claim theorems -/

/-- The count of Python-truthy fields among invoice number, date, vendor
name and total amount — exactly the `fields_found` sum of
`parse_invoice`. -/
def truthyFieldCount (d : InvoiceData) : Nat :=
  (if strTruthy d.invoice_number then 1 else 0) +
  (if strTruthy d.date then 1 else 0) +
  (if strTruthy d.vendor_name then 1 else 0) +
  (if amtTruthy d.total_amount then 1 else 0)

/-- Delete the first occurrence of `needle` from `hay` (identity when
there is none or `needle` is empty). -/
def removeFirst (needle hay : Str) : Str :=
  if needle.isEmpty then hay
  else if List.isPrefixOf needle hay then hay.drop needle.length
  else
    match hay with
    | [] => []
    | c :: t => c :: removeFirst needle t

/-- Modelled from the spec: the description the claim specifies — delete
the substring matched by whichever date pattern fired (its first
occurrence) and any amount-shaped substring from the line, then collapse
whitespace.  Used only to compare against the code's description. -/
def claimedDescription (line : Str) : Option Str :=
  (((date_patterns false).filterMap fun p => reSearch p line).head?).map fun m =>
    collapseWs (subAll amtSubPat (removeFirst m.consumed line))

/-- The invoice record produced by the code on the text `Total: 0`. -/
def c4Record : InvoiceData :=
  { invoice_number := none, date := none, vendor_name := none,
    vendor_gstin := none, total_amount := some 0, tax_amount := some 0,
    line_items := [], confidence := 0 }

/-- OCR environment with only easyocr and tesseract configured and a
measured Laplacian variance of 600. -/
def env600 : OCREnv :=
  { azureOk := false, tesseractOk := true, easyocrOk := true, gvOk := false,
    runAzure := .error "e", runTesseract := .ok ("t", 1/2),
    runEasyocr := .ok ("e", 1/2), runGV := .error "e",
    cvnp := true, variance := some 600 }

/-- Same environment with a measured variance of 100. -/
def env100 : OCREnv := { env600 with variance := some 100 }

/-- OCR environment with only tesseract configured, whose invocation
raises with message `boom`. -/
def envAllFail : OCREnv :=
  { azureOk := false, tesseractOk := true, easyocrOk := false, gvOk := false,
    runAzure := .error "x", runTesseract := .error "boom",
    runEasyocr := .error "x", runGV := .error "x",
    cvnp := false, variance := none }

/-- OCR environment with no engine configured at all. -/
def envNone : OCREnv :=
  { azureOk := false, tesseractOk := false, easyocrOk := false, gvOk := false,
    runAzure := .error "x", runTesseract := .error "x",
    runEasyocr := .error "x", runGV := .error "x",
    cvnp := false, variance := none }

/-! ### Claim theorems -/

set_option maxRecDepth 100000

/-- C1 (counterexample): on the line
`02/01/2024  ATM Withdrawal Dr  2000.00` the parser's description is
`ATM Withdrawal Dr` — the direction keyword `Dr` is not removed — so the
claimed record with description `ATM Withdrawal` is not returned. -/
theorem c1_counterexample :
    (parse_transaction_line "02/01/2024  ATM Withdrawal Dr  2000.00".toList).map
        TransactionData.description = some "ATM Withdrawal Dr".toList ∧
    "ATM Withdrawal Dr".toList ≠ "ATM Withdrawal".toList :=
  ⟨by with_unfolding_all rfl, by decide⟩

/-- C1 (amended): for the input line
`02/01/2024  ATM Withdrawal Dr  2000.00` the transaction line parser
returns date `02/01/2024`, description `ATM Withdrawal Dr`, amount
2000.0, direction `debit`, category `miscellaneous` and confidence
0.8. -/
theorem c1_scenario_record :
    parse_transaction_line "02/01/2024  ATM Withdrawal Dr  2000.00".toList =
      some { date := some "02/01/2024".toList
             description := "ATM Withdrawal Dr".toList
             amount := some 2000
             transaction_type := some "debit".toList
             category := some "miscellaneous".toList
             confidence := 0.8 } := by
  with_unfolding_all rfl

/-- C2 (code evaluation): on a text containing `CGST: Rs. 100` and
`SGST: Rs. 100` the code extracts no tax amount at all (the tax
patterns admit an optional rupee sign but not `Rs.` between the label
and the digits), instead of the 200 the claim requires. -/
theorem c2_rs_tax_not_extracted :
    extract_amounts "CGST: Rs. 100\nSGST: Rs. 100".toList =
      some { total := none, tax := none } := by
  with_unfolding_all rfl

/-- C3: for every input text, `parse_bank_statement` sets
`parsing_confidence` to the number of transactions with a non-null
amount divided by the number of all transactions, and to exactly 0 when
the transaction list is empty (the division is never evaluated then). -/
theorem c3_parsing_confidence_ratio (text : Str) :
    (parse_bank_statement text).parsing_confidence =
      if (parse_bank_statement text).transactions.isEmpty then 0
      else (((parse_bank_statement text).transactions.filter
              (fun t => t.amount.isSome)).length : ℚ) /
           ((parse_bank_statement text).transactions.length : ℚ) := rfl

/-- C6 (counterexample): on `02 Jan 2024 Salary Credit 5000.00` the date
fires on the `DD Mon YYYY` pattern, but the description builder deletes
only the slash-or-dash date shape, so the description keeps `Jan` and
differs from the claimed deletion of the matched date substring. -/
theorem c6_counterexample :
    (parse_transaction_line "02 Jan 2024 Salary Credit 5000.00".toList).map
        (fun t => (t.date, t.description)) =
      some (some "02 Jan 2024".toList, "Jan Salary Credit".toList) ∧
    claimedDescription "02 Jan 2024 Salary Credit 5000.00".toList =
      some "Salary Credit".toList ∧
    "Jan Salary Credit".toList ≠ "Salary Credit".toList :=
  ⟨by with_unfolding_all rfl, by with_unfolding_all rfl, by decide⟩

/-- C6 (amended): for every accepted line, the description equals the
line with all substrings of the numeric slash-or-dash date shape (the
first date pattern only) and all amount-shaped substrings deleted, and
whitespace collapsed. -/
theorem c6_description_amended (line : Str) (t : TransactionData)
    (h : parse_transaction_line line = some t) :
    t.description = collapseWs (subAll amtSubPat (subAll dateSubPat line)) := by
  unfold parse_transaction_line at h
  cases hh : ((date_patterns false).filterMap fun p => reSearch p line).head? with
  | none => rw [hh] at h; exact absurd h (by simp)
  | some dm =>
    rw [hh] at h
    cases ha : extract_amount_from_line line with
    | none => rw [ha] at h; exact absurd h (by simp)
    | some a =>
      rw [ha] at h
      dsimp only at h
      by_cases hz : a = 0
      · rw [if_pos hz] at h; exact absurd h (by simp)
      · rw [if_neg hz] at h
        have := (Option.some.inj h)
        rw [← this]

/-- Witness for C6 at the line `05/06/2024 Taxi ride 320.00`. -/
theorem c6_witness :
    parse_transaction_line "05/06/2024 Taxi ride 320.00".toList =
      some { date := some "05/06/2024".toList
             description := "Taxi ride".toList
             amount := some 320
             transaction_type := some "credit".toList
             category := some "transport".toList
             confidence := 0.8 } ∧
    TransactionData.description
        { date := some "05/06/2024".toList
          description := "Taxi ride".toList
          amount := some 320
          transaction_type := some "credit".toList
          category := some "transport".toList
          confidence := 0.8 } =
      collapseWs (subAll amtSubPat (subAll dateSubPat "05/06/2024 Taxi ride 320.00".toList)) :=
  ⟨by with_unfolding_all rfl,
   c6_description_amended "05/06/2024 Taxi ride 320.00".toList _ (by with_unfolding_all rfl)⟩

/-- Every transaction the line parser accepts has a date and a non-zero
amount (helper shared by the theorems below). -/
theorem parse_transaction_line_fields (line : Str) (t : TransactionData)
    (h : parse_transaction_line line = some t) :
    t.date ≠ none ∧ ∃ a, t.amount = some a ∧ a ≠ 0 := by
  unfold parse_transaction_line at h
  cases hh : ((date_patterns false).filterMap fun p => reSearch p line).head? with
  | none => rw [hh] at h; exact absurd h (by simp)
  | some dm =>
    rw [hh] at h
    cases ha : extract_amount_from_line line with
    | none => rw [ha] at h; exact absurd h (by simp)
    | some a =>
      rw [ha] at h
      dsimp only at h
      by_cases hz : a = 0
      · rw [if_pos hz] at h; exact absurd h (by simp)
      · rw [if_neg hz] at h
        rw [← Option.some.inj h]
        exact ⟨by simp, a, rfl, hz⟩

/-- C9: every transaction placed in a bank-statement result has a
non-null date and a non-null, non-zero amount, and consequently
`parsing_confidence` is exactly 0 or exactly 1. -/
theorem c9_transactions_invariant (text : Str) :
    (∀ t ∈ (parse_bank_statement text).transactions,
        t.date ≠ none ∧ ∃ a, t.amount = some a ∧ a ≠ 0) ∧
    ((parse_bank_statement text).parsing_confidence = 0 ∨
     (parse_bank_statement text).parsing_confidence = 1) := by
  have hmem : ∀ t ∈ (parse_bank_statement text).transactions,
      t.date ≠ none ∧ ∃ a, t.amount = some a ∧ a ≠ 0 := by
    intro t ht
    have hrw : (parse_bank_statement text).transactions =
        (((text.splitOn '\n').map stripStr).filter
          (fun l => !(l.isEmpty || decide (l.length < 10)))).filterMap
            parse_transaction_line := rfl
    rw [hrw] at ht
    obtain ⟨l, _, hl⟩ := List.mem_filterMap.mp ht
    exact parse_transaction_line_fields l t hl
  refine ⟨hmem, ?_⟩
  have hconf : (parse_bank_statement text).parsing_confidence =
      if (parse_bank_statement text).transactions.isEmpty then 0
      else (((parse_bank_statement text).transactions.filter
              (fun t => t.amount.isSome)).length : ℚ) /
           ((parse_bank_statement text).transactions.length : ℚ) := rfl
  by_cases he : (parse_bank_statement text).transactions.isEmpty
  · left; rw [hconf, if_pos he]
  · right
    rw [hconf, if_neg he]
    have hfil : (parse_bank_statement text).transactions.filter
        (fun t => t.amount.isSome) = (parse_bank_statement text).transactions := by
      apply List.filter_eq_self.mpr
      intro t ht
      obtain ⟨-, a, ha, -⟩ := hmem t ht
      simp [ha]
    rw [hfil]
    have hne : (parse_bank_statement text).transactions ≠ [] := by
      simpa [List.isEmpty_iff] using he
    have hp : 0 < (parse_bank_statement text).transactions.length :=
      List.length_pos.mpr hne
    have hlen : ((parse_bank_statement text).transactions.length : ℚ) ≠ 0 := by
      exact_mod_cast Nat.pos_iff_ne_zero.mp hp
    exact div_self hlen

/-- Witness for C9 at the one-line text `03/04/2024 Grocery Store 450.00`. -/
theorem c9_witness :
    (TransactionData.date
          { date := some "03/04/2024".toList, description := "Grocery Store".toList,
            amount := some 450, transaction_type := some "credit".toList,
            category := some "shopping".toList, confidence := 0.8 } ≠ none ∧
      ∃ a, TransactionData.amount
          { date := some "03/04/2024".toList, description := "Grocery Store".toList,
            amount := some 450, transaction_type := some "credit".toList,
            category := some "shopping".toList, confidence := 0.8 } = some a ∧ a ≠ 0) ∧
    ((parse_bank_statement "03/04/2024 Grocery Store 450.00".toList).parsing_confidence = 0 ∨
     (parse_bank_statement "03/04/2024 Grocery Store 450.00".toList).parsing_confidence = 1) :=
  ⟨(c9_transactions_invariant "03/04/2024 Grocery Store 450.00".toList).1 _
      (by
        have h : (parse_bank_statement "03/04/2024 Grocery Store 450.00".toList).transactions =
            [{ date := some "03/04/2024".toList, description := "Grocery Store".toList,
               amount := some 450, transaction_type := some "credit".toList,
               category := some "shopping".toList, confidence := 0.8 }] := by
          with_unfolding_all rfl
        rw [h]; exact List.mem_singleton.mpr rfl),
   (c9_transactions_invariant "03/04/2024 Grocery Store 450.00".toList).2⟩

/-- C4 (counterexample): on the text `Total: 0` the extracted total
amount is the non-null `0.0`, yet the confidence is 0, not the 1/4 the
non-null count demands — Python truthiness, not nullness, is counted. -/
theorem c4_counterexample :
    parse_invoice "Total: 0".toList = some c4Record ∧
    c4Record.total_amount ≠ none ∧ c4Record.invoice_number = none ∧
    c4Record.date = none ∧ c4Record.vendor_name = none ∧
    c4Record.confidence ≠ (1 : ℚ) / 4 :=
  ⟨by with_unfolding_all rfl, by simp [c4Record], rfl, rfl, rfl,
   by norm_num [c4Record]⟩

/-- C4 (amended): the invoice confidence equals the number of
Python-truthy fields among invoice number, date, vendor name and total
amount (non-null, non-empty, and non-zero for the total) divided by 4,
and therefore always lies in `{0, 0.25, 0.5, 0.75, 1}`. -/
theorem c4_confidence_truthy_quarters (text : Str) (d : InvoiceData)
    (h : parse_invoice text = some d) :
    d.confidence = (truthyFieldCount d : ℚ) / 4 ∧
    d.confidence ∈ ({0, 1/4, 1/2, 3/4, 1} : Set ℚ) := by
  unfold parse_invoice at h
  cases ham : extract_amounts text with
  | none => rw [ham] at h; exact absurd h (by simp)
  | some am =>
    rw [ham] at h
    dsimp only at h
    rw [← Option.some.inj h]
    refine ⟨rfl, ?_⟩
    show ((_ : ℕ) : ℚ) / 4 ∈ _
    dsimp only
    split_ifs <;>
      norm_num [Set.mem_insert_iff, Set.mem_singleton_iff]

/-- Witness for C4 at the text `Total: 0`. -/
theorem c4_witness :
    c4Record.confidence = (truthyFieldCount c4Record : ℚ) / 4 ∧
    c4Record.confidence ∈ ({0, 1/4, 1/2, 3/4, 1} : Set ℚ) :=
  c4_confidence_truthy_quarters "Total: 0".toList c4Record (by with_unfolding_all rfl)

/-- C10: whenever `_extract_amounts` finds a total or a tax, both
`total_amount` and `tax_amount` are set, the missing one defaulting to
0; when it finds neither, both remain null. -/
theorem c10_amount_defaults (text : Str) (d : InvoiceData) (am : Amounts)
    (h : parse_invoice text = some d) (ha : extract_amounts text = some am) :
    ((am.total.isSome ∨ am.tax.isSome) →
        d.total_amount = some (am.total.getD 0) ∧
        d.tax_amount = some (am.tax.getD 0)) ∧
    (am.total = none ∧ am.tax = none →
        d.total_amount = none ∧ d.tax_amount = none) := by
  unfold parse_invoice at h
  rw [ha] at h
  dsimp only at h
  rw [← Option.some.inj h]
  constructor
  · intro hsome
    have hb : (am.total.isSome || am.tax.isSome) = true := by
      rcases hsome with h1 | h1 <;> simp [h1]
    simp [hb]
  · rintro ⟨h1, h2⟩
    simp [h1, h2]

/-- Witness for C10 at the text `GST: 500` (tax found, total defaulted
to 0). -/
theorem c10_witness :
    InvoiceData.total_amount
        { invoice_number := none, date := none, vendor_name := none,
          vendor_gstin := none, total_amount := some 0, tax_amount := some 500,
          line_items := [], confidence := 0 } =
      some ((none : Option ℚ).getD 0) ∧
    InvoiceData.tax_amount
        { invoice_number := none, date := none, vendor_name := none,
          vendor_gstin := none, total_amount := some 0, tax_amount := some 500,
          line_items := [], confidence := 0 } =
      some ((some (500 : ℚ)).getD 0) :=
  (c10_amount_defaults "GST: 500".toList _ ⟨none, some 500⟩
      (by with_unfolding_all rfl) (by with_unfolding_all rfl)).1
    (Or.inr (by simp))

/-- C5: the document-type detector lower-cases the text and tests the
bank-statement, invoice and GST-notice keyword sets in that priority
order; the first set with any keyword present wins, `other` is returned
when none matches, and the result is always one of the four values. -/
theorem c5_detector_characterization (text : Str) :
    (detect_document_type text = "bank_statement".toList ↔
       ∃ w ∈ bank_keywords, containsSub w (lowerStr text) = true) ∧
    (detect_document_type text = "invoice".toList ↔
       (¬∃ w ∈ bank_keywords, containsSub w (lowerStr text) = true) ∧
         ∃ w ∈ invoice_keywords, containsSub w (lowerStr text) = true) ∧
    (detect_document_type text = "gst_notice".toList ↔
       (¬∃ w ∈ bank_keywords, containsSub w (lowerStr text) = true) ∧
         (¬∃ w ∈ invoice_keywords, containsSub w (lowerStr text) = true) ∧
         ∃ w ∈ gst_keywords, containsSub w (lowerStr text) = true) ∧
    (detect_document_type text = "other".toList ↔
       (¬∃ w ∈ bank_keywords, containsSub w (lowerStr text) = true) ∧
         (¬∃ w ∈ invoice_keywords, containsSub w (lowerStr text) = true) ∧
         (¬∃ w ∈ gst_keywords, containsSub w (lowerStr text) = true)) ∧
    (detect_document_type text = "bank_statement".toList ∨
     detect_document_type text = "invoice".toList ∨
     detect_document_type text = "gst_notice".toList ∨
     detect_document_type text = "other".toList) := by
  unfold detect_document_type
  dsimp only
  split_ifs with h1 h2 h3 <;>
    simp_all [List.any_eq_true]

/-- C7: with `auto` requested and only easyocr and tesseract available
(so neither azure nor google_vision is configured), the selector uses
the measured Laplacian variance: above 500 it picks easyocr, otherwise
tesseract — both at the selector itself and as the pipeline's
`method_used`. -/
theorem c7_auto_variance_selection (env : OCREnv) (v : ℚ)
    (h1 : env.azureOk = false) (h2 : env.gvOk = false)
    (h3 : env.easyocrOk = true) (h4 : env.tesseractOk = true)
    (h5 : env.cvnp = true) (h6 : env.variance = some v) :
    choose_best_method env (availableMethods env) =
        (if v > 500 then "easyocr" else "tesseract") ∧
    (extract_text_from_image env "auto").method_used =
        (if v > 500 then "easyocr" else "tesseract") := by
  have hav : availableMethods env = ["tesseract", "easyocr"] := by
    simp [availableMethods, check_dependencies, h1, h2, h3, h4]
  have hcb : choose_best_method env (availableMethods env) =
      (if v > 500 then "easyocr" else "tesseract") := by
    rw [hav]
    unfold choose_best_method
    rw [h5, h6]
    by_cases hv : v > 500 <;> simp [hv]
  refine ⟨hcb, ?_⟩
  unfold extract_text_from_image
  dsimp only
  rw [hav] at hcb ⊢
  rw [hcb]
  by_cases hv : v > 500
  · rw [if_pos hv]
    simp only [List.isEmpty_cons, if_false]
    simp only [check_dependencies, h3]
    unfold finishExtract ocrDispatch runEngine
    simp only [check_dependencies, h3]
    cases env.runEasyocr <;> simp [Except.map]
  · rw [if_neg hv]
    simp only [List.isEmpty_cons, if_false]
    simp only [check_dependencies, h4]
    unfold finishExtract ocrDispatch runEngine
    simp only [check_dependencies, h4]
    cases env.runTesseract <;> simp [Except.map]

/-- Witness for C7: variance 600 selects easyocr, variance 100 selects
tesseract. -/
theorem c7_witness :
    (extract_text_from_image env600 "auto").method_used = "easyocr" ∧
    (extract_text_from_image env100 "auto").method_used = "tesseract" := by
  constructor
  · have h := (c7_auto_variance_selection env600 600 rfl rfl rfl rfl rfl rfl).2
    rw [if_pos (by norm_num)] at h
    exact h
  · have h := (c7_auto_variance_selection env100 100 rfl rfl rfl rfl rfl rfl).2
    rw [if_neg (by norm_num)] at h
    exact h

/-- A method whose dependency check passes is in the available list
(helper for the failure-semantics theorem). -/
theorem check_mem_available (env : OCREnv) (m : String)
    (h : check_dependencies env m = true) : m ∈ availableMethods env := by
  unfold check_dependencies at h
  split_ifs at h with e1 e2 e3 e4
  · subst e1; simp [availableMethods, check_dependencies, h]
  · subst e2; simp [availableMethods, check_dependencies, h]
  · subst e3; simp [availableMethods, check_dependencies, h]
  · subst e4; simp [availableMethods, check_dependencies, h]

/-- The fallback loop yields nothing when every engine invocation
raises. -/
theorem fallbackLoop_none (env : OCREnv) (l : List String)
    (h : ∀ e ∈ l, ∀ r, runEngine env e ≠ .ok r) : fallbackLoop env l = none := by
  induction l with
  | nil => rfl
  | cons m rest ih =>
    unfold fallbackLoop
    cases hr : runEngine env m with
    | ok r => exact absurd hr (h m (by simp) r)
    | error e => exact ih (fun x hx r => h x (by simp [hx]) r)

/-- C8: `extract_text_from_image` is total (no exception escapes); with
no engine available it returns the zero-confidence unavailability
result, and when every available engine's invocation raises it returns
a zero-confidence result whose text is the explanatory message or the
error message behind the `OCR extraction failed: ` prefix. -/
theorem c8_failure_semantics (env : OCREnv) (method : String) :
    (availableMethods env = [] →
       extract_text_from_image env method =
         { extracted_text := unavailableMsg, confidence := 0, method_used := "none" }) ∧
    ((∀ e ∈ availableMethods env, ∀ r, runEngine env e ≠ .ok r) →
       (extract_text_from_image env method).confidence = 0 ∧
       ((extract_text_from_image env method).extracted_text = unavailableMsg ∨
        ∃ msg, (extract_text_from_image env method).extracted_text =
          "OCR extraction failed: " ++ msg)) := by
  have hfin : (∀ e ∈ availableMethods env, ∀ r, runEngine env e ≠ .ok r) →
      ∀ m2, (finishExtract env (availableMethods env) m2).confidence = 0 ∧
        ((finishExtract env (availableMethods env) m2).extracted_text = unavailableMsg ∨
         ∃ msg, (finishExtract env (availableMethods env) m2).extracted_text =
           "OCR extraction failed: " ++ msg) := by
    intro hall m2
    have herr : ∀ nm, check_dependencies env nm = true →
        ∃ e, runEngine env nm = .error e := by
      intro nm hnm
      cases hr : runEngine env nm with
      | ok r => exact absurd hr (hall nm (check_mem_available env nm hnm) r)
      | error e => exact ⟨e, rfl⟩
    have hd : ∃ e, ocrDispatch env (availableMethods env) m2 = .error e := by
      unfold ocrDispatch
      split_ifs with g1 g2 g3 g4
      · obtain ⟨e, he⟩ := herr "azure" ((Bool.and_eq_true _ _).mp g1).2
        exact ⟨e, by rw [he]; rfl⟩
      · obtain ⟨e, he⟩ := herr "google_vision" ((Bool.and_eq_true _ _).mp g2).2
        exact ⟨e, by rw [he]; rfl⟩
      · obtain ⟨e, he⟩ := herr "easyocr" ((Bool.and_eq_true _ _).mp g3).2
        exact ⟨e, by rw [he]; rfl⟩
      · obtain ⟨e, he⟩ := herr "tesseract" ((Bool.and_eq_true _ _).mp g4).2
        exact ⟨e, by rw [he]; rfl⟩
      · rw [fallbackLoop_none env _ hall]
        exact ⟨_, rfl⟩
    obtain ⟨e, he⟩ := hd
    unfold finishExtract
    rw [he]
    exact ⟨rfl, Or.inr ⟨e, rfl⟩⟩
  constructor
  · intro hav
    unfold extract_text_from_image
    rw [hav]
    rfl
  · intro hall
    by_cases hav : (availableMethods env).isEmpty = true
    · unfold extract_text_from_image
      dsimp only
      rw [if_pos hav]
      exact ⟨rfl, Or.inl rfl⟩
    · unfold extract_text_from_image
      dsimp only
      rw [if_neg hav]
      exact hfin hall _

/-- Witness for C8: with no engine configured the unavailability result
is returned; with a single failing tesseract the error-carrying
zero-confidence result is returned. -/
theorem c8_witness :
    extract_text_from_image envNone "auto" =
      { extracted_text := unavailableMsg, confidence := 0, method_used := "none" } ∧
    ((extract_text_from_image envAllFail "auto").confidence = 0 ∧
     ((extract_text_from_image envAllFail "auto").extracted_text = unavailableMsg ∨
      ∃ msg, (extract_text_from_image envAllFail "auto").extracted_text =
        "OCR extraction failed: " ++ msg)) :=
  ⟨(c8_failure_semantics envNone "auto").1 rfl,
   (c8_failure_semantics envAllFail "auto").2 (by
      intro e he r
      have hav : availableMethods envAllFail = ["tesseract"] := rfl
      rw [hav, List.mem_singleton] at he
      subst he
      simp [runEngine, envAllFail])⟩
